import Mathlib

/-!
Verification of the vendor sales summary pipeline (get_vendor_summary.py).

The pipeline reads three base fact tables (vendor_invoice, purchases, sales)
and an optional price reference table (product_prices) from a SQLite store,
verifies the schema, builds an aggregation query whose shape depends on
whether a product-identifying column exists in purchases, cleans the result
(null-fill, text normalization, safe-division metrics) and materializes it
back into the store as vendor_sales_summary.

The embedding below models SQL values with exact rationals, SQL NULL with
Option / an explicit Cell type, tables with lists of rows, and the pandas
DataFrame transforms with pure functions on those lists.
-/

namespace VendorSummary

/-- A scalar cell as it flows through the pandas frame: SQL NULL (pandas NaN
or None), a Python int (what fillna(0) inserts), a numeric value, or a text
value. -/
inductive Cell where
  | null : Cell
  | int : Int → Cell
  | num : ℚ → Cell
  | str : String → Cell
deriving DecidableEq

/-- A row of the vendor_invoice base table. -/
structure InvoiceRow where
  VendorNumber : Int
  Freight : ℚ
deriving DecidableEq

/-- A row of the purchases base table. productId holds the value of the
product-identifying column when the schema has one. -/
structure PurchaseRow where
  VendorNumber : Int
  VendorName : Cell
  Brand : Int
  Description : Cell
  PurchasePrice : ℚ
  Quantity : ℚ
  Dollars : ℚ
  productId : Option Int
deriving DecidableEq

/-- A row of the sales base table. -/
structure SalesRow where
  VendorNo : Int
  Brand : Int
  SalesQuantity : ℚ
  SalesDollars : ℚ
deriving DecidableEq

/-- A row of the product_prices reference table (ProductID is its primary
key). -/
structure PriceRow where
  ProductID : Int
  Brand : Int
  Price : ℚ
  Volume : ℚ
deriving DecidableEq

/-- The fixed priority list of candidate product-identifying column names
(get_vendor_summary.py line 39). -/
def product_candidates : List String := ["ProductID", "ItemID", "SKU", "ProductCode"]

/-- Automatically detect which column represents the product ID: the first
candidate of the priority list present in the column list
(get_vendor_summary.py lines 37-42). -/
def detect_product_column (columns : List String) : Option String :=
  product_candidates.find? fun candidate => decide (candidate ∈ columns)

/-- The three query fragments whose text depends on the detected product
column (get_vendor_summary.py lines 80-87). -/
structure QueryParts where
  join_clause : String
  select_actual_price : String
  select_volume : String
deriving DecidableEq

/-- Build the shape-dependent query fragments: with a detected product column
the purchase rows are LEFT JOINed to product_prices, otherwise literal NULLs
are selected and the join is omitted (lines 80-87). -/
def buildQueryParts (product_col : Option String) : QueryParts :=
  match product_col with
  | some c =>
      { join_clause := "LEFT JOIN product_prices pp ON p." ++ c ++ " = pp.ProductID"
        select_actual_price := "pp.Price AS ActualPrice"
        select_volume := "pp.Volume" }
  | none =>
      { join_clause := ""
        select_actual_price := "NULL AS ActualPrice"
        select_volume := "NULL AS Volume" }

/-- The required tables, in the order the code checks them (line 51). -/
def required_tables : List String := ["vendor_invoice", "purchases", "sales", "product_prices"]

/-- Verify required tables, auto-creating product_prices when absent
(get_vendor_summary.py lines 45-71). Returns the resulting set of existing
tables and either ok or the raised error message. -/
def verify_and_create_tables (existing : List String) : List String × Except String Unit :=
  let missing := required_tables.filter fun t => decide (t ∉ existing)
  let tables := if "product_prices" ∈ missing then existing ++ ["product_prices"] else existing
  let missing2 := if "product_prices" ∈ missing then missing.erase "product_prices" else missing
  if missing2.isEmpty then (tables, Except.ok ())
  else (tables, Except.error ("Missing required tables: " ++ String.intercalate ", " missing2))

/-- A row of the FreightSummary CTE: SUM(Freight) grouped by VendorNumber
(query lines 90-96). -/
structure FreightSummaryRow where
  VendorNumber : Int
  FreightCost : ℚ
deriving DecidableEq

/-- The FreightSummary CTE: one row per distinct VendorNumber of
vendor_invoice, holding the freight sum of its group. -/
def freightSummary (vendor_invoice : List InvoiceRow) : List FreightSummaryRow :=
  ((vendor_invoice.map (·.VendorNumber)).dedup).map fun v =>
    { VendorNumber := v
      FreightCost :=
        ((vendor_invoice.filter fun r => decide (r.VendorNumber = v)).map (·.Freight)).sum }

/-- A row of the SalesSummary CTE: sales sums grouped by (VendorNo, Brand)
(query lines 112-120). -/
structure SalesSummaryRow where
  VendorNo : Int
  Brand : Int
  TotalSalesQuantity : ℚ
  TotalSalesDollars : ℚ
deriving DecidableEq

/-- The SalesSummary CTE: one row per distinct (VendorNo, Brand) of sales. -/
def salesSummary (sales : List SalesRow) : List SalesSummaryRow :=
  ((sales.map fun s => (s.VendorNo, s.Brand)).dedup).map fun k =>
    let grp := sales.filter fun s => decide (s.VendorNo = k.1 ∧ s.Brand = k.2)
    { VendorNo := k.1
      Brand := k.2
      TotalSalesQuantity := (grp.map (·.SalesQuantity)).sum
      TotalSalesDollars := (grp.map (·.SalesDollars)).sum }

/-- The optional enrichment join of one purchase row against product_prices
on purchase.productId = ProductID; no product column or no match means no
enrichment (ProductID is unique, so at most one row matches). -/
def enrich (product_col : Option String) (product_prices : List PriceRow)
    (p : PurchaseRow) : Option PriceRow :=
  match product_col with
  | none => none
  | some _ =>
    match p.productId with
    | none => none
    | some pid => product_prices.find? fun pr => decide (pr.ProductID = pid)

/-- The GROUP BY key of the PurchaseSummary CTE (query line 110). -/
structure PKey where
  VendorNumber : Int
  VendorName : Cell
  Brand : Int
  Description : Cell
  PurchasePrice : ℚ
  ActualPrice : Option ℚ
  Volume : Option ℚ
deriving DecidableEq

/-- The grouping key of one (optionally enriched) purchase row. -/
def ekey (product_col : Option String) (product_prices : List PriceRow)
    (p : PurchaseRow) : PKey :=
  let e := enrich product_col product_prices p
  { VendorNumber := p.VendorNumber
    VendorName := p.VendorName
    Brand := p.Brand
    Description := p.Description
    PurchasePrice := p.PurchasePrice
    ActualPrice := e.map (·.Price)
    Volume := e.map (·.Volume) }

/-- A row of the PurchaseSummary CTE (query lines 97-111). -/
structure PurchaseSummaryRow where
  key : PKey
  TotalPurchaseQuantity : ℚ
  TotalPurchaseDollars : ℚ
deriving DecidableEq

/-- The PurchaseSummary CTE: one row per distinct grouping key of the
(optionally enriched) purchase rows, holding quantity and dollar sums. -/
def purchaseSummary (product_col : Option String) (product_prices : List PriceRow)
    (purchases : List PurchaseRow) : List PurchaseSummaryRow :=
  ((purchases.map (ekey product_col product_prices)).dedup).map fun k =>
    let grp := purchases.filter fun p => decide (ekey product_col product_prices p = k)
    { key := k
      TotalPurchaseQuantity := (grp.map (·.Quantity)).sum
      TotalPurchaseDollars := (grp.map (·.Dollars)).sum }

/-- A row of the executed summary query, before cleaning: the purchase
aggregate columns plus the (nullable) sales totals and freight cost
(query lines 121-131). -/
structure RawRow where
  VendorNumber : Int
  VendorName : Cell
  Brand : Int
  Description : Cell
  PurchasePrice : ℚ
  ActualPrice : Option ℚ
  Volume : Cell
  TotalPurchaseQuantity : ℚ
  TotalPurchaseDollars : ℚ
  TotalSalesQuantity : Option ℚ
  TotalSalesDollars : Option ℚ
  FreightCost : Option ℚ
deriving DecidableEq

/-- An optional rational as the frame receives it: NULL or a number. -/
def optCell : Option ℚ → Cell
  | none => Cell.null
  | some q => Cell.num q

/-- The final SELECT of the query: one purchase-aggregate row left-outer
joined to the sales aggregate on (VendorNumber, Brand) and to the freight
aggregate on VendorNumber (both join keys are unique in their aggregates,
so find? models the join). -/
def finalSelect (ps : PurchaseSummaryRow) (ss : List SalesSummaryRow)
    (fs : List FreightSummaryRow) : RawRow :=
  let s := ss.find? fun r => decide (r.VendorNo = ps.key.VendorNumber ∧ r.Brand = ps.key.Brand)
  let f := fs.find? fun r => decide (r.VendorNumber = ps.key.VendorNumber)
  { VendorNumber := ps.key.VendorNumber
    VendorName := ps.key.VendorName
    Brand := ps.key.Brand
    Description := ps.key.Description
    PurchasePrice := ps.key.PurchasePrice
    ActualPrice := ps.key.ActualPrice
    Volume := optCell ps.key.Volume
    TotalPurchaseQuantity := ps.TotalPurchaseQuantity
    TotalPurchaseDollars := ps.TotalPurchaseDollars
    TotalSalesQuantity := s.map (·.TotalSalesQuantity)
    TotalSalesDollars := s.map (·.TotalSalesDollars)
    FreightCost := f.map (·.FreightCost) }

/-- The ORDER BY relation of the query: TotalPurchaseDollars descending. -/
def byPurchaseDollarsDesc (a b : RawRow) : Prop :=
  b.TotalPurchaseDollars ≤ a.TotalPurchaseDollars

instance : DecidableRel byPurchaseDollarsDesc := fun a b =>
  inferInstanceAs (Decidable (b.TotalPurchaseDollars ≤ a.TotalPurchaseDollars))

instance : IsTotal RawRow byPurchaseDollarsDesc :=
  ⟨fun _ _ => le_total _ _⟩

instance : IsTrans RawRow byPurchaseDollarsDesc :=
  ⟨fun _ _ _ h1 h2 => le_trans h2 h1⟩

/-- Execute the summary query for a given (already detected) product column:
the three grouped CTEs, the two left outer joins, and the ORDER BY
TotalPurchaseDollars DESC (query lines 89-132). -/
def runQuery (product_col : Option String) (vendor_invoice : List InvoiceRow)
    (purchases : List PurchaseRow) (sales : List SalesRow)
    (product_prices : List PriceRow) : List RawRow :=
  let rows := (purchaseSummary product_col product_prices purchases).map fun ps =>
    finalSelect ps (salesSummary sales) (freightSummary vendor_invoice)
  rows.insertionSort byPurchaseDollarsDesc

/-- Build the vendor summary with the auto-detected join column
(get_vendor_summary.py lines 74-134). -/
def create_vendor_summary (purchase_cols : List String)
    (vendor_invoice : List InvoiceRow) (purchases : List PurchaseRow)
    (sales : List SalesRow) (product_prices : List PriceRow) : List RawRow :=
  runQuery (detect_product_column purchase_cols) vendor_invoice purchases sales product_prices

/-- df.fillna(0) on one cell: NULL becomes the Python int 0, everything else
is kept (line 140). -/
def fillCell (c : Cell) : Cell :=
  match c with
  | Cell.null => Cell.int 0
  | c => c

/-- astype(str) on one cell: its text representation. -/
def toText : Cell → String
  | Cell.null => "None"
  | Cell.int i => toString i
  | Cell.num q => toString q
  | Cell.str s => s

/-- Strip leading and trailing whitespace from a character list. -/
def stripChars (l : List Char) : List Char :=
  ((l.dropWhile Char.isWhitespace).reverse.dropWhile Char.isWhitespace).reverse

/-- Strip leading and trailing whitespace (pandas .str.strip()). -/
def strip (s : String) : String := String.mk (stripChars s.data)

/-- Value of a list of decimal digit characters. -/
def digitsVal (l : List Char) : Nat :=
  l.foldl (fun n c => 10 * n + (c.toNat - 48)) 0

/-- Split a character list on the dot character. -/
def splitDot : List Char → List Char → List (List Char)
  | [], acc => [acc.reverse]
  | c :: rest, acc =>
    if c == Char.ofNat 46 then acc.reverse :: splitDot rest []
    else splitDot rest (c :: acc)

/-- Parse a plain decimal numeral (optional sign, optional fractional part),
the grammar pd.to_numeric accepts on simple inputs; anything else is
unparseable. -/
def parseDecimal? (s : String) : Option ℚ :=
  let t0 := stripChars s.data
  let neg := match t0 with
    | c :: _ => c == Char.ofNat 45
    | [] => false
  let t := if neg then t0.drop 1 else t0
  match splitDot t [] with
  | [ip] =>
    if !ip.isEmpty && ip.all Char.isDigit then
      let v : ℚ := (digitsVal ip : ℚ)
      some (if neg then -v else v)
    else none
  | [ip, fp] =>
    if (!ip.isEmpty || !fp.isEmpty) && ip.all Char.isDigit && fp.all Char.isDigit then
      let v : ℚ := (digitsVal ip : ℚ) + (digitsVal fp : ℚ) / ((10 : ℚ) ^ fp.length)
      some (if neg then -v else v)
    else none
  | _ => none

/-- pd.to_numeric with coercion: numbers pass through, parseable text parses,
anything else becomes missing (then filled with 0, line 142). -/
def toNumericCoerce : Cell → Option ℚ
  | Cell.null => none
  | Cell.int i => some (i : ℚ)
  | Cell.num q => some q
  | Cell.str s => parseDecimal? s

/-- A row of the cleaned frame, with the four derived metrics
(lines 137-152). -/
structure CleanRow where
  VendorNumber : Int
  VendorName : String
  Brand : Int
  Description : String
  PurchasePrice : ℚ
  ActualPrice : ℚ
  Volume : ℚ
  TotalPurchaseQuantity : ℚ
  TotalPurchaseDollars : ℚ
  TotalSalesQuantity : ℚ
  TotalSalesDollars : ℚ
  FreightCost : ℚ
  GrossProfit : ℚ
  ProfitMargin : ℚ
  StockTurnover : ℚ
  SalesToPurchaseRatio : ℚ
deriving DecidableEq

/-- Series.replace(0, 1) on one value: the safe-division denominator. -/
def replaceZeroOne (q : ℚ) : ℚ := if q = 0 then 1 else q

/-- Clean one row: fillna(0) on every field, Volume coerced to numeric with
unparseable values becoming 0, VendorName and Description coerced to text and
stripped, then the four derived metrics with the safe-division policy
(lines 137-152). -/
def cleanRow (r : RawRow) : CleanRow :=
  let tsq := r.TotalSalesQuantity.getD 0
  let tsd := r.TotalSalesDollars.getD 0
  let fc := r.FreightCost.getD 0
  let ap := r.ActualPrice.getD 0
  let vol := (toNumericCoerce (fillCell r.Volume)).getD 0
  let vendorName := strip (toText (fillCell r.VendorName))
  let description := strip (toText (fillCell r.Description))
  let grossProfit := tsd - r.TotalPurchaseDollars
  { VendorNumber := r.VendorNumber
    VendorName := vendorName
    Brand := r.Brand
    Description := description
    PurchasePrice := r.PurchasePrice
    ActualPrice := ap
    Volume := vol
    TotalPurchaseQuantity := r.TotalPurchaseQuantity
    TotalPurchaseDollars := r.TotalPurchaseDollars
    TotalSalesQuantity := tsq
    TotalSalesDollars := tsd
    FreightCost := fc
    GrossProfit := grossProfit
    ProfitMargin := grossProfit / replaceZeroOne tsd
    StockTurnover := tsq / replaceZeroOne r.TotalPurchaseQuantity
    SalesToPurchaseRatio := tsd / replaceZeroOne r.TotalPurchaseDollars }

/-- Clean and transform the vendor summary frame (lines 137-152). -/
def clean_data (df : List RawRow) : List CleanRow := df.map cleanRow

/-- The store as the pipeline sees it: which tables exist, their contents,
the column list of purchases, and the materialized summary table. -/
structure Store where
  hasVendorInvoice : Bool
  hasPurchases : Bool
  hasSales : Bool
  hasProductPrices : Bool
  vendor_invoice : List InvoiceRow
  purchase_cols : List String
  purchases : List PurchaseRow
  sales : List SalesRow
  product_prices : List PriceRow
  vendor_sales_summary : Option (List CleanRow)
deriving DecidableEq

/-- The names in sqlite_master for a store (the base tables the flags say
exist and, when present, product_prices). -/
def Store.existingNames (s : Store) : List String :=
  (if s.hasVendorInvoice then ["vendor_invoice"] else []) ++
  (if s.hasPurchases then ["purchases"] else []) ++
  (if s.hasSales then ["sales"] else []) ++
  (if s.hasProductPrices then ["product_prices"] else [])

/-- verify_and_create_tables run against a store: product_prices is created
(empty) when absent, and the verification verdict is that of the name-level
check. -/
def storeVerify (s : Store) : Store × Except String Unit :=
  let r := verify_and_create_tables s.existingNames
  let s1 := if s.hasProductPrices then s
            else { s with hasProductPrices := true, product_prices := [] }
  (s1, r.2)

/-- Insert the cleaned frame into the store, replacing any prior
vendor_sales_summary table (lines 155-158). -/
def ingest_db (df : List CleanRow) (s : Store) : Store :=
  { s with vendor_sales_summary := some df }

/-- One run of the pipeline: verify tables, build the summary, clean it,
ingest it (the main script, lines 164-190). -/
def runPipeline (s : Store) : Except String Store :=
  match storeVerify s with
  | (_, Except.error e) => Except.error e
  | (s1, Except.ok _) =>
    let summary_df := create_vendor_summary s1.purchase_cols s1.vendor_invoice
      s1.purchases s1.sales s1.product_prices
    let clean_df := clean_data summary_df
    Except.ok (ingest_db clean_df s1)

/-- A Python object a DataFrame reference can point at: the raw summary frame
or the cleaned frame. -/
inductive PyObj where
  | raw : List RawRow → PyObj
  | clean : List CleanRow → PyObj
deriving DecidableEq

/-- clean_data as it acts on the heap of DataFrame objects: df.copy()
allocates a fresh object holding the same contents, and every subsequent
(in-place or assigning) operation writes to that fresh object; the function
returns the reference to it (lines 137-152). -/
def clean_data_prog (h : List PyObj) (df : Nat) : List PyObj × Nat :=
  match h[df]? with
  | none => (h, df)
  | some obj =>
    let copyRef := h.length
    let h1 := h ++ [obj]
    let newVal :=
      match obj with
      | PyObj.raw rows => PyObj.clean (clean_data rows)
      | other => other
    (h1.set copyRef newVal, copyRef)

/-- A raw row with TotalPurchaseDollars 0 and TotalSalesDollars 500: the
safe-division example of the spec. -/
def exRow500 : RawRow :=
  { VendorNumber := 1, VendorName := Cell.str "V", Brand := 2, Description := Cell.str "D"
    PurchasePrice := 10, ActualPrice := none, Volume := Cell.null
    TotalPurchaseQuantity := 0, TotalPurchaseDollars := 0
    TotalSalesQuantity := some 5, TotalSalesDollars := some 500, FreightCost := none }

/-- A raw row with a padded VendorName, a null Description and a non-numeric
Volume: the normalization examples of the spec. -/
def exRowAcme : RawRow :=
  { VendorNumber := 1, VendorName := Cell.str "  Acme  ", Brand := 2
    Description := Cell.null, PurchasePrice := 1, ActualPrice := none
    Volume := Cell.str "abc", TotalPurchaseQuantity := 1, TotalPurchaseDollars := 1
    TotalSalesQuantity := none, TotalSalesDollars := none, FreightCost := none }

/-- A concrete purchase row used to instantiate the universally quantified
theorems at a concrete input. -/
def wPurchaseRow : PurchaseRow :=
  { VendorNumber := 7, VendorName := Cell.str "Acme", Brand := 3, Description := Cell.str "Gin"
    PurchasePrice := 10, Quantity := 2, Dollars := 20, productId := none }

/-- A concrete store with the three base tables present and product_prices
absent. -/
def wStore : Store :=
  { hasVendorInvoice := true, hasPurchases := true, hasSales := true, hasProductPrices := false
    vendor_invoice := [], purchase_cols := ["VendorNumber"], purchases := [], sales := []
    product_prices := [], vendor_sales_summary := none }

/-- The store wStore after one pipeline run: product_prices created and the
(empty) summary materialized. -/
def wStoreRun : Store :=
  { hasVendorInvoice := true, hasPurchases := true, hasSales := true, hasProductPrices := true
    vendor_invoice := [], purchase_cols := ["VendorNumber"], purchases := [], sales := []
    product_prices := [], vendor_sales_summary := some [] }

/-- The VendorName a cleaned row carries: the raw cell null-filled, coerced
to text, then stripped. -/
theorem cleanRow_VendorName (r : RawRow) :
    (cleanRow r).VendorName = strip (toText (fillCell r.VendorName)) := rfl

/-- The Description a cleaned row carries: the raw cell null-filled, coerced
to text, then stripped. -/
theorem cleanRow_Description (r : RawRow) :
    (cleanRow r).Description = strip (toText (fillCell r.Description)) := rfl

/-- The Volume a cleaned row carries: the raw cell null-filled, coerced to
numeric, unparseable values becoming 0. -/
theorem cleanRow_Volume (r : RawRow) :
    (cleanRow r).Volume = (toNumericCoerce (fillCell r.Volume)).getD 0 := rfl

/-- C1: the Metric Calculator derives GrossProfit as
TotalSalesDollars - TotalPurchaseDollars and the three ratios ProfitMargin,
StockTurnover and SalesToPurchaseRatio with every zero denominator replaced
by 1 (the substituted denominator is never 0, so no null or infinity can
arise, and a zero denominator makes the ratio equal the numerator); in
particular a row with TotalPurchaseDollars 0 and TotalSalesDollars 500
yields SalesToPurchaseRatio 500. -/
theorem clean_data_safe_division (r : RawRow) :
    ((cleanRow r).GrossProfit =
      (cleanRow r).TotalSalesDollars - (cleanRow r).TotalPurchaseDollars) ∧
    ((if (cleanRow r).TotalSalesDollars = 0 then (1 : ℚ)
        else (cleanRow r).TotalSalesDollars) ≠ 0) ∧
    ((if (cleanRow r).TotalPurchaseQuantity = 0 then (1 : ℚ)
        else (cleanRow r).TotalPurchaseQuantity) ≠ 0) ∧
    ((if (cleanRow r).TotalPurchaseDollars = 0 then (1 : ℚ)
        else (cleanRow r).TotalPurchaseDollars) ≠ 0) ∧
    ((cleanRow r).ProfitMargin = (cleanRow r).GrossProfit /
      (if (cleanRow r).TotalSalesDollars = 0 then 1 else (cleanRow r).TotalSalesDollars)) ∧
    ((cleanRow r).StockTurnover = (cleanRow r).TotalSalesQuantity /
      (if (cleanRow r).TotalPurchaseQuantity = 0 then 1
        else (cleanRow r).TotalPurchaseQuantity)) ∧
    ((cleanRow r).SalesToPurchaseRatio = (cleanRow r).TotalSalesDollars /
      (if (cleanRow r).TotalPurchaseDollars = 0 then 1
        else (cleanRow r).TotalPurchaseDollars)) ∧
    ((cleanRow r).TotalPurchaseDollars = 0 →
      (cleanRow r).SalesToPurchaseRatio = (cleanRow r).TotalSalesDollars) ∧
    (cleanRow exRow500).TotalPurchaseDollars = 0 ∧
    (cleanRow exRow500).TotalSalesDollars = 500 ∧
    (cleanRow exRow500).SalesToPurchaseRatio = 500 := by
  refine ⟨rfl, ?_, ?_, ?_, rfl, rfl, rfl, ?_, by norm_num [cleanRow, exRow500],
    by norm_num [cleanRow, exRow500], by norm_num [cleanRow, exRow500, replaceZeroOne]⟩
  · split <;> simp_all
  · split <;> simp_all
  · split <;> simp_all
  · intro h
    simp only [cleanRow, replaceZeroOne] at h ⊢
    simp [h]

/-- C2: the Schema Verifier always ends with product_prices existing
(auto-created when absent, nothing else added or removed), succeeds when no
base table of vendor_invoice, purchases, sales is missing, and otherwise
fails with a message naming all missing base tables comma-joined in the
required order; in particular from existing tables
vendor_invoice, purchases it creates product_prices and fails naming
exactly sales. -/
theorem verify_and_create_tables_gate (existing : List String) :
    ("product_prices" ∈ (verify_and_create_tables existing).1) ∧
    (∀ t, t ∈ (verify_and_create_tables existing).1 ↔ (t ∈ existing ∨ t = "product_prices")) ∧
    ((["vendor_invoice", "purchases", "sales"].filter fun t => decide (t ∉ existing)) = [] →
      (verify_and_create_tables existing).2 = Except.ok ()) ∧
    (∀ m, (["vendor_invoice", "purchases", "sales"].filter fun t => decide (t ∉ existing)) = m →
      m ≠ [] →
      (verify_and_create_tables existing).2 =
        Except.error ("Missing required tables: " ++ String.intercalate ", " m)) ∧
    verify_and_create_tables ["vendor_invoice", "purchases"] =
      (["vendor_invoice", "purchases", "product_prices"],
        Except.error "Missing required tables: sales") := by
  by_cases h1 : "vendor_invoice" ∈ existing <;>
  by_cases h2 : "purchases" ∈ existing <;>
  by_cases h3 : "sales" ∈ existing <;>
  by_cases h4 : "product_prices" ∈ existing <;>
  simp_all [verify_and_create_tables, required_tables, List.filter, List.erase]
  all_goals rfl

/-- C3: detect_product_column returns the first name of the fixed priority
list ProductID, ItemID, SKU, ProductCode present in the given column list
(none when no candidate is present); in particular any input containing
ProductID yields ProductID, whatever the input order, covering the
SKU-with-ProductID example. -/
theorem detect_product_column_first_match (columns : List String) :
    (detect_product_column columns = none ↔ ∀ c ∈ product_candidates, c ∉ columns) ∧
    (∀ c, detect_product_column columns = some c →
      c ∈ product_candidates ∧ c ∈ columns ∧
      ∀ d ∈ product_candidates, d ∈ columns →
        product_candidates.indexOf c ≤ product_candidates.indexOf d) ∧
    ("ProductID" ∈ columns → detect_product_column columns = some "ProductID") ∧
    detect_product_column ["SKU", "ProductID"] = some "ProductID" := by
  refine ⟨?_, ?_, ?_, by decide⟩ <;>
  · by_cases h1 : "ProductID" ∈ columns <;>
    by_cases h2 : "ItemID" ∈ columns <;>
    by_cases h3 : "SKU" ∈ columns <;>
    by_cases h4 : "ProductCode" ∈ columns <;>
    simp_all [detect_product_column, product_candidates, List.find?, List.indexOf,
      List.indexOf_cons, List.indexOf_nil] <;> decide

/-- A row of the executed query is exactly a finalSelect over some purchase
aggregate row. -/
theorem mem_runQuery_iff {product_col : Option String} {vendor_invoice : List InvoiceRow}
    {purchases : List PurchaseRow} {sales : List SalesRow} {product_prices : List PriceRow}
    {r : RawRow} :
    r ∈ runQuery product_col vendor_invoice purchases sales product_prices ↔
      ∃ ps ∈ purchaseSummary product_col product_prices purchases,
        r = finalSelect ps (salesSummary sales) (freightSummary vendor_invoice) := by
  unfold runQuery
  rw [List.mem_insertionSort, List.mem_map]
  constructor
  · rintro ⟨ps, hps, rfl⟩
    exact ⟨ps, hps, rfl⟩
  · rintro ⟨ps, hps, rfl⟩
    exact ⟨ps, hps, rfl⟩

/-- Every purchase aggregate row's key is the key of some purchase row. -/
theorem purchaseSummary_key_mem {product_col : Option String} {product_prices : List PriceRow}
    {purchases : List PurchaseRow} {ps : PurchaseSummaryRow}
    (hps : ps ∈ purchaseSummary product_col product_prices purchases) :
    ∃ p ∈ purchases, ps.key = ekey product_col product_prices p := by
  unfold purchaseSummary at hps
  obtain ⟨k, hk, rfl⟩ := List.mem_map.1 hps
  obtain ⟨p, hp, rfl⟩ := List.mem_map.1 (List.mem_dedup.1 hk)
  exact ⟨p, hp, rfl⟩

/-- Every purchase row's key appears as the key of some purchase aggregate
row: grouping drops no purchase-side group. -/
theorem purchaseSummary_complete {product_col : Option String} {product_prices : List PriceRow}
    {purchases : List PurchaseRow} {p : PurchaseRow} (hp : p ∈ purchases) :
    ∃ ps ∈ purchaseSummary product_col product_prices purchases,
      ps.key = ekey product_col product_prices p :=
  ⟨_, List.mem_map_of_mem _ (List.mem_dedup.2 (List.mem_map_of_mem _ hp)), rfl⟩

/-- C5: when no product-identifying column is detected, the built query
fragments select literal NULL for ActualPrice and Volume with an empty join
clause (no join to product_prices), every raw output row carries NULL in
those columns, and after cleaning every output row has ActualPrice 0 and
Volume 0. -/
theorem no_enrichment_path (purchase_cols : List String) (vendor_invoice : List InvoiceRow)
    (purchases : List PurchaseRow) (sales : List SalesRow) (product_prices : List PriceRow)
    (hnone : detect_product_column purchase_cols = none) :
    (buildQueryParts (detect_product_column purchase_cols)).join_clause = "" ∧
    (buildQueryParts (detect_product_column purchase_cols)).select_actual_price =
      "NULL AS ActualPrice" ∧
    (buildQueryParts (detect_product_column purchase_cols)).select_volume = "NULL AS Volume" ∧
    (∀ r ∈ create_vendor_summary purchase_cols vendor_invoice purchases sales product_prices,
      r.ActualPrice = none ∧ r.Volume = Cell.null) ∧
    (∀ c ∈ clean_data (create_vendor_summary purchase_cols vendor_invoice purchases sales
        product_prices),
      c.ActualPrice = 0 ∧ c.Volume = 0) := by
  have hq : create_vendor_summary purchase_cols vendor_invoice purchases sales product_prices
      = runQuery none vendor_invoice purchases sales product_prices := by
    unfold create_vendor_summary
    rw [hnone]
  rw [hq, hnone]
  refine ⟨rfl, rfl, rfl, fun r hr => ?_, fun c hc => ?_⟩
  · obtain ⟨ps, hps, rfl⟩ := mem_runQuery_iff.1 hr
    obtain ⟨p, hp, hkey⟩ := purchaseSummary_key_mem hps
    constructor
    · show ps.key.ActualPrice = none
      rw [hkey]; rfl
    · show optCell ps.key.Volume = Cell.null
      rw [hkey]; rfl
  · obtain ⟨r, hr, rfl⟩ := List.mem_map.1 hc
    obtain ⟨ps, hps, rfl⟩ := mem_runQuery_iff.1 hr
    obtain ⟨p, hp, hkey⟩ := purchaseSummary_key_mem hps
    constructor
    · show ps.key.ActualPrice.getD 0 = 0
      rw [hkey]; rfl
    · rw [cleanRow_Volume]
      have hv : (finalSelect ps (salesSummary sales)
          (freightSummary vendor_invoice)).Volume = optCell ps.key.Volume := rfl
      rw [hv, hkey]
      show (toNumericCoerce (fillCell (optCell none))).getD 0 = 0
      simp [optCell, fillCell, toNumericCoerce]

/-- Closed instance of no_enrichment_path at a concrete store shape with no
product column in purchases. -/
theorem no_enrichment_path_witness :
    (buildQueryParts (detect_product_column ["VendorNumber", "Brand"])).join_clause = "" ∧
    ∀ c ∈ clean_data (create_vendor_summary ["VendorNumber", "Brand"] [] [wPurchaseRow] [] []),
      c.ActualPrice = 0 ∧ c.Volume = 0 := by
  obtain ⟨h1, h2, h3, h4, h5⟩ := no_enrichment_path ["VendorNumber", "Brand"] [] [wPurchaseRow]
    [] [] (by decide)
  exact ⟨h1, h5⟩

/-- When no sales row matches a key, the sales-aggregate lookup for that key
finds nothing. -/
theorem salesSummary_lookup_none {sales : List SalesRow} {v b : Int}
    (h : ∀ s ∈ sales, ¬(s.VendorNo = v ∧ s.Brand = b)) :
    (salesSummary sales).find? (fun r => decide (r.VendorNo = v ∧ r.Brand = b)) = none := by
  rw [List.find?_eq_none]
  intro x hx
  unfold salesSummary at hx
  obtain ⟨k, hk, rfl⟩ := List.mem_map.1 hx
  obtain ⟨s, hs, rfl⟩ := List.mem_map.1 (List.mem_dedup.1 hk)
  simpa using h s hs

/-- When no invoice row matches a vendor, the freight-aggregate lookup for
that vendor finds nothing. -/
theorem freightSummary_lookup_none {vendor_invoice : List InvoiceRow} {v : Int}
    (h : ∀ i ∈ vendor_invoice, i.VendorNumber ≠ v) :
    (freightSummary vendor_invoice).find? (fun r => decide (r.VendorNumber = v)) = none := by
  rw [List.find?_eq_none]
  intro x hx
  unfold freightSummary at hx
  obtain ⟨k, hk, rfl⟩ := List.mem_map.1 hx
  obtain ⟨i, hi, rfl⟩ := List.mem_map.1 (List.mem_dedup.1 hk)
  simpa using h i hi

/-- A final row whose sales lookup is empty carries NULL sales totals. -/
theorem finalSelect_no_sales {ps : PurchaseSummaryRow} {ss : List SalesSummaryRow}
    {fs : List FreightSummaryRow}
    (h : ss.find? (fun r => decide (r.VendorNo = ps.key.VendorNumber ∧
      r.Brand = ps.key.Brand)) = none) :
    (finalSelect ps ss fs).TotalSalesQuantity = none ∧
    (finalSelect ps ss fs).TotalSalesDollars = none := by
  have h1 : (finalSelect ps ss fs).TotalSalesQuantity =
      (ss.find? (fun r => decide (r.VendorNo = ps.key.VendorNumber ∧
        r.Brand = ps.key.Brand))).map (·.TotalSalesQuantity) := rfl
  have h2 : (finalSelect ps ss fs).TotalSalesDollars =
      (ss.find? (fun r => decide (r.VendorNo = ps.key.VendorNumber ∧
        r.Brand = ps.key.Brand))).map (·.TotalSalesDollars) := rfl
  rw [h1, h2, h]
  exact ⟨rfl, rfl⟩

/-- A final row whose freight lookup is empty carries a NULL freight cost. -/
theorem finalSelect_no_freight {ps : PurchaseSummaryRow} {ss : List SalesSummaryRow}
    {fs : List FreightSummaryRow}
    (h : fs.find? (fun r => decide (r.VendorNumber = ps.key.VendorNumber)) = none) :
    (finalSelect ps ss fs).FreightCost = none := by
  have h1 : (finalSelect ps ss fs).FreightCost =
      (fs.find? (fun r => decide (r.VendorNumber = ps.key.VendorNumber))).map
        (·.FreightCost) := rfl
  rw [h1, h]
  rfl

/-- C4: every (VendorNumber, Brand) combination with a purchase row appears
in the query output even with no matching sales or invoice rows (there those
measures are NULL), and in the cleaned output the null-filled
TotalSalesQuantity, TotalSalesDollars and FreightCost equal 0: the purchase
aggregate is left-outer-joined, so no purchase-side group is dropped. -/
theorem outer_join_completeness (purchase_cols : List String) (vendor_invoice : List InvoiceRow)
    (purchases : List PurchaseRow) (sales : List SalesRow) (product_prices : List PriceRow)
    (p : PurchaseRow) (hp : p ∈ purchases) :
    (∃ r ∈ create_vendor_summary purchase_cols vendor_invoice purchases sales product_prices,
      r.VendorNumber = p.VendorNumber ∧ r.Brand = p.Brand ∧
      ((∀ s ∈ sales, ¬(s.VendorNo = p.VendorNumber ∧ s.Brand = p.Brand)) →
        r.TotalSalesQuantity = none ∧ r.TotalSalesDollars = none) ∧
      ((∀ i ∈ vendor_invoice, i.VendorNumber ≠ p.VendorNumber) → r.FreightCost = none)) ∧
    (∃ c ∈ clean_data (create_vendor_summary purchase_cols vendor_invoice purchases sales
        product_prices),
      c.VendorNumber = p.VendorNumber ∧ c.Brand = p.Brand ∧
      ((∀ s ∈ sales, ¬(s.VendorNo = p.VendorNumber ∧ s.Brand = p.Brand)) →
        c.TotalSalesQuantity = 0 ∧ c.TotalSalesDollars = 0) ∧
      ((∀ i ∈ vendor_invoice, i.VendorNumber ≠ p.VendorNumber) → c.FreightCost = 0)) := by
  obtain ⟨ps, hps, hkey⟩ :=
    @purchaseSummary_complete (detect_product_column purchase_cols) product_prices purchases p hp
  have hv : ps.key.VendorNumber = p.VendorNumber := by rw [hkey]; rfl
  have hb : ps.key.Brand = p.Brand := by rw [hkey]; rfl
  have hmem : finalSelect ps (salesSummary sales) (freightSummary vendor_invoice) ∈
      create_vendor_summary purchase_cols vendor_invoice purchases sales product_prices :=
    mem_runQuery_iff.2 ⟨ps, hps, rfl⟩
  refine ⟨⟨_, hmem, hv, hb, fun h => ?_, fun h => ?_⟩,
    ⟨_, List.mem_map_of_mem cleanRow hmem, hv, hb, fun h => ?_, fun h => ?_⟩⟩
  · rw [← hv, ← hb] at h
    exact finalSelect_no_sales (salesSummary_lookup_none h)
  · rw [← hv] at h
    exact finalSelect_no_freight (freightSummary_lookup_none h)
  · rw [← hv, ← hb] at h
    have hnone := @finalSelect_no_sales ps (salesSummary sales) (freightSummary vendor_invoice)
      (salesSummary_lookup_none h)
    constructor
    · rw [show (cleanRow (finalSelect ps (salesSummary sales)
        (freightSummary vendor_invoice))).TotalSalesQuantity = (finalSelect ps (salesSummary sales)
        (freightSummary vendor_invoice)).TotalSalesQuantity.getD 0 from rfl, hnone.1]
      rfl
    · rw [show (cleanRow (finalSelect ps (salesSummary sales)
        (freightSummary vendor_invoice))).TotalSalesDollars = (finalSelect ps (salesSummary sales)
        (freightSummary vendor_invoice)).TotalSalesDollars.getD 0 from rfl, hnone.2]
      rfl
  · rw [← hv] at h
    have hnone := @finalSelect_no_freight ps (salesSummary sales) (freightSummary vendor_invoice)
      (freightSummary_lookup_none h)
    rw [show (cleanRow (finalSelect ps (salesSummary sales)
      (freightSummary vendor_invoice))).FreightCost = (finalSelect ps (salesSummary sales)
      (freightSummary vendor_invoice)).FreightCost.getD 0 from rfl, hnone]
    rfl

/-- Closed instance of outer_join_completeness: a store with one purchase
row, no sales and no invoices still yields an output row for that vendor and
brand, with zero sales totals and zero freight after cleaning. -/
theorem outer_join_completeness_witness :
    ∃ c ∈ clean_data (create_vendor_summary ["VendorNumber"] [] [wPurchaseRow] [] []),
      c.VendorNumber = 7 ∧ c.Brand = 3 ∧
      (c.TotalSalesQuantity = 0 ∧ c.TotalSalesDollars = 0) ∧ c.FreightCost = 0 := by
  obtain ⟨-, c, hc, h1, h2, h3, h4⟩ := outer_join_completeness ["VendorNumber"] [] [wPurchaseRow]
    [] [] wPurchaseRow (List.mem_singleton.2 rfl)
  exact ⟨c, hc, h1, h2, h3 (by simp), h4 (by simp)⟩

/-- C8: the rows of the summary query result are ordered by
TotalPurchaseDollars descending: pairwise (hence for every pair of
consecutive rows) the earlier row's TotalPurchaseDollars is at least the
later row's. -/
theorem summary_sorted_by_purchase_dollars_desc (purchase_cols : List String)
    (vendor_invoice : List InvoiceRow) (purchases : List PurchaseRow)
    (sales : List SalesRow) (product_prices : List PriceRow) :
    (create_vendor_summary purchase_cols vendor_invoice purchases sales
      product_prices).Pairwise
      (fun a b => b.TotalPurchaseDollars ≤ a.TotalPurchaseDollars) :=
  List.sorted_insertionSort byPurchaseDollarsDesc _

/-- Setting the cell just past a list, in the list extended by one element,
rewrites that element. -/
theorem set_append_length {α : Type} (l : List α) (a v : α) :
    (l ++ [a]).set l.length v = l ++ [v] := by
  induction l with
  | nil => rfl
  | cons x xs ih => simp [List.set, ih]

/-- C9: clean_data does not mutate its input frame: the transform copies the
input object, every write lands on the copy, and the returned reference is a
fresh one (holding the cleaned frame) while the input slot of the heap is
unchanged. -/
theorem clean_data_does_not_mutate_input (h : List PyObj) (df : Nat) (hdf : df < h.length) :
    ((clean_data_prog h df).1)[df]? = h[df]? ∧
    (clean_data_prog h df).2 = h.length ∧
    df ≠ (clean_data_prog h df).2 ∧
    (∀ rows, h[df]? = some (PyObj.raw rows) →
      ((clean_data_prog h df).1)[(clean_data_prog h df).2]? =
        some (PyObj.clean (clean_data rows))) := by
  have hobj : h[df]? = some h[df] := List.getElem?_eq_getElem hdf
  have hprog : clean_data_prog h df =
      ((h ++ [h[df]]).set h.length
        (match h[df] with
          | PyObj.raw rows => PyObj.clean (clean_data rows)
          | other => other), h.length) := by
    unfold clean_data_prog
    rw [hobj]
  rw [hprog, set_append_length]
  refine ⟨List.getElem?_append_left hdf, rfl, Nat.ne_of_lt hdf, fun rows hrows => ?_⟩
  rw [hobj] at hrows
  have heq : h[df] = PyObj.raw rows := by injection hrows
  rw [heq]
  exact List.getElem?_concat_length _ _

/-- Closed instance of clean_data_does_not_mutate_input on a one-object
heap. -/
theorem clean_data_does_not_mutate_input_witness :
    ((clean_data_prog [PyObj.raw []] 0).1)[0]? = some (PyObj.raw []) ∧
    (clean_data_prog [PyObj.raw []] 0).2 = 1 ∧
    ((clean_data_prog [PyObj.raw []] 0).1)[(clean_data_prog [PyObj.raw []] 0).2]? =
      some (PyObj.clean (clean_data [])) := by
  obtain ⟨h1, h2, h3, h4⟩ := clean_data_does_not_mutate_input [PyObj.raw []] 0 (by decide)
  exact ⟨by rw [h1]; rfl, h2, h4 [] rfl⟩

/-- C7: running the pipeline twice against the same unchanged base fact
tables produces the identical output table: a successful run is a fixed
point, so the second run recomputes the same rows in the same order and its
replace-write leaves the store unchanged. -/
theorem pipeline_idempotent (s t : Store) (hrun : runPipeline s = Except.ok t) :
    runPipeline t = Except.ok t := by
  obtain ⟨f1, f2, f3, f4, vi, pcols, pu, sa, pp, sm⟩ := s
  cases f1 <;> cases f2 <;> cases f3 <;> cases f4 <;>
    simp_all [runPipeline, storeVerify, Store.existingNames, verify_and_create_tables,
      required_tables, ingest_db]
  all_goals subst hrun
  all_goals rfl

/-- Closed instance of pipeline_idempotent: the store reached after one run
from wStore is a fixed point of the pipeline. -/
theorem pipeline_idempotent_witness :
    runPipeline wStoreRun = Except.ok wStoreRun :=
  pipeline_idempotent wStore wStoreRun (by rfl)

/-- C6: cleaning trims whitespace from VendorName and Description after
coercing the (null-filled) cell to text — so string cells are stripped and
non-string cells are coerced, never failing — and coerces Volume to a
number, unparseable values becoming 0; in particular a padded VendorName
loses its padding and a non-numeric Volume becomes 0. -/
theorem clean_data_normalizes_text_and_volume (r : RawRow) :
    (∀ s, r.VendorName = Cell.str s → (cleanRow r).VendorName = strip s) ∧
    (∀ s, r.Description = Cell.str s → (cleanRow r).Description = strip s) ∧
    (∀ i, r.VendorName = Cell.int i → (cleanRow r).VendorName = strip (toText (Cell.int i))) ∧
    (∀ q, r.VendorName = Cell.num q → (cleanRow r).VendorName = strip (toText (Cell.num q))) ∧
    (∀ s, r.Volume = Cell.str s → parseDecimal? s = none → (cleanRow r).Volume = 0) ∧
    (∀ q, r.Volume = Cell.num q → (cleanRow r).Volume = q) ∧
    (cleanRow exRowAcme).VendorName = "Acme" ∧
    (cleanRow exRowAcme).Volume = 0 := by
  refine ⟨fun s hs => ?_, fun s hs => ?_, fun i hi => ?_, fun q hq => ?_,
    fun s hs hparse => ?_, fun q hq => ?_, by decide, by decide⟩
  · rw [cleanRow_VendorName, hs]; rfl
  · rw [cleanRow_Description, hs]; rfl
  · rw [cleanRow_VendorName, hi]; rfl
  · rw [cleanRow_VendorName, hq]; rfl
  · rw [cleanRow_Volume, hs]
    simp [fillCell, toNumericCoerce, hparse]
  · rw [cleanRow_Volume, hq]
    rfl

/-- C10: a null VendorName or Description comes out of cleaning as the text
zero (the string holding one zero digit, which is neither empty nor null),
because the null-fill with the number 0 happens before the text coercion and
trim. -/
theorem clean_data_null_text_is_zero_string (r : RawRow) :
    (r.VendorName = Cell.null → (cleanRow r).VendorName = "0") ∧
    (r.Description = Cell.null → (cleanRow r).Description = "0") ∧
    ("0" : String) ≠ "" := by
  refine ⟨fun h => ?_, fun h => ?_, by decide⟩
  · rw [cleanRow_VendorName, h]; decide
  · rw [cleanRow_Description, h]; decide

end VendorSummary
